import Mathlib

/-
Verification of the goggle-calibrate repository core components:
the fail-safe hardware channel (src/goggles.py), the configuration
validation (src/config.py) and the adaptive staircase engine
(src/staircase.py).

Python exceptions are embedded as `Except` values whose error component
carries the object state at the moment of the raise (Python mutates in
place, so a propagated exception leaves the object in whatever state it
had reached).  Each distinct `raise` site in the source gets its own
error constructor.  The physical outcome of a serial write is an oracle
boolean passed to every operation that writes.
-/

deriving instance DecidableEq for Except

namespace GoggleCalibrate

/-- Error constructors, one per raise site in src/goggles.py. -/
inductive GErr
  | initMinRange   -- __init__: brightness_min must be 0-255
  | initMaxRange   -- __init__: brightness_max must be 0-255
  | initMinGeMax   -- __init__: brightness_min must be less than brightness_max
  | connectFail    -- open: failed to open serial port
  | notOpenState   -- set_brightness: cannot set brightness, serial port not open
  | rangeOut       -- set_brightness: brightness level must be 0-255
  | writeNotOpen   -- _write_brightness: serial port not open
  | writeFail      -- _write_brightness: failed to write to serial port
deriving DecidableEq, Repr

/-- Model of the pyserial handle owned by the controller: its open flag and
the transcript of levels successfully written to the wire. -/
structure SerialPort where
  is_open : Bool
  sent : List Int
deriving DecidableEq, Repr

/-- State of one GoggleController instance (src/goggles.py lines 41-81):
the configured soft bounds, the optional serial handle, the mirrored
brightness `_current_brightness` and the `_is_open` flag. -/
structure GoggleController where
  brightness_min : Int
  brightness_max : Int
  serial : Option SerialPort
  current_brightness : Int
  is_open : Bool
deriving DecidableEq, Repr

/-- GoggleController._write_brightness (src/goggles.py lines 183-204):
raises if the serial handle is absent or closed, otherwise writes the
level (appending it to the transcript) or raises if the physical write
fails. -/
def write_brightness (c : GoggleController) (level : Int) (writeOk : Bool) :
    Except (GErr × GoggleController) GoggleController :=
  match c.serial with
  | none => .error (.writeNotOpen, c)
  | some s =>
    if s.is_open then
      if writeOk then
        .ok { c with serial := some { s with sent := s.sent ++ [level] } }
      else .error (.writeFail, c)
    else .error (.writeNotOpen, c)

/-- Sequential soft clamp of GoggleController.set_brightness
(src/goggles.py lines 222-234): first raise to brightness_min, then cut
to brightness_max. -/
def clampSoft (c : GoggleController) (level : Int) : Int :=
  let l1 := if level < c.brightness_min then c.brightness_min else level
  if l1 > c.brightness_max then c.brightness_max else l1

/-- GoggleController.set_brightness (src/goggles.py lines 206-239):
state check, hard-range check, soft clamp, write, then update the
mirrored brightness.  The mirror is updated only after a successful
write, exactly as in the source. -/
def set_brightness (c : GoggleController) (level : Int) (writeOk : Bool) :
    Except (GErr × GoggleController) GoggleController :=
  if c.is_open then
    if level < 0 ∨ level > 255 then .error (.rangeOut, c)
    else
      match write_brightness c (clampSoft c level) writeOk with
      | .ok c1 => .ok { c1 with current_brightness := clampSoft c level }
      | .error e => .error e
  else .error (.notOpenState, c)

/-- GoggleController.get_brightness (src/goggles.py lines 241-247). -/
def get_brightness (c : GoggleController) : Int :=
  c.current_brightness

/-- GoggleController._force_brightness_zero (src/goggles.py lines 169-181):
if a live open serial handle exists, attempt the forced zero write; on
success also zero the mirror; any raise is caught and only logged, so the
function is total.  Note the mirror is NOT zeroed when the write fails. -/
def force_brightness_zero (c : GoggleController) (writeOk : Bool) : GoggleController :=
  match c.serial with
  | none => c
  | some s =>
    if s.is_open then
      match write_brightness c 0 writeOk with
      | .ok c1 => { c1 with current_brightness := 0 }
      | .error _ => c
    else c

/-- GoggleController.close (src/goggles.py lines 151-167): no-op when not
open; otherwise forced zero transmit (errors swallowed), then the serial
handle is closed and in the finally block `_is_open` is cleared and the
handle dropped.  Total: close never raises. -/
def close (c : GoggleController) (zeroWriteOk : Bool) : GoggleController :=
  if c.is_open then
    let c1 := force_brightness_zero c zeroWriteOk
    { c1 with is_open := false, serial := none }
  else c

/-- GoggleController.open, per-instance part (src/goggles.py lines 126-149):
no-op when already open; establishing the transport may fail
(serial.SerialException becomes a GoggleError with the state unchanged);
on success the open flag is set and `set_brightness 0` runs.  A GoggleError
raised by that initial write is NOT caught by the except clause (which
catches only serial.SerialException), so it propagates with `_is_open`
already true — mirrored faithfully here. -/
def openController (c : GoggleController) (establishOk writeOk : Bool) :
    Except (GErr × GoggleController) GoggleController :=
  if c.is_open then .ok c
  else if establishOk then
    let c1 := { c with serial := some { is_open := true, sent := [] }, is_open := true }
    set_brightness c1 0 writeOk
  else .error (.connectFail, c)

/-- Fresh controller state as left by __init__ after successful validation
(src/goggles.py lines 70-78): no serial handle, mirror 0, closed. -/
def initController (bmin bmax : Int) : GoggleController :=
  { brightness_min := bmin, brightness_max := bmax, serial := none,
    current_brightness := 0, is_open := false }

/-- Process-wide state: the constructed controller instances (identified by
their index), the class attribute `GoggleController._active_instance`,
the list of registered atexit hooks and the owner of the current
SIGINT/SIGTERM handlers (src/goggles.py lines 38-39 and 88-98). -/
structure GoggleWorld where
  controllers : List GoggleController
  active_instance : Option Nat
  atexit_hooks : List Nat
  signal_owner : Option Nat
deriving DecidableEq, Repr

/-- GoggleController.__init__ plus _register_shutdown_handlers
(src/goggles.py lines 41-98): validation first (raising leaves the world
unchanged), then a fresh instance is appended and registered as the
active instance, an atexit hook is added and the signal handlers are
pointed at it. -/
def construct (w : GoggleWorld) (bmin bmax : Int) : Except GErr GoggleWorld :=
  if bmin < 0 ∨ bmin > 255 then .error .initMinRange
  else if bmax < 0 ∨ bmax > 255 then .error .initMaxRange
  else if bmin ≥ bmax then .error .initMinGeMax
  else
    let i := w.controllers.length
    .ok { controllers := w.controllers ++ [initController bmin bmax],
          active_instance := some i,
          atexit_hooks := w.atexit_hooks ++ [i],
          signal_owner := some i }

/-- Replace controller `i` in the world. -/
def updateController (w : GoggleWorld) (i : Nat) (c : GoggleController) : GoggleWorld :=
  { w with controllers := w.controllers.set i c }

/-- Default controller used to read a world slot totally. -/
def dfltController : GoggleController := initController 0 255

/-- World-level view of GoggleController.open on instance `i`.  Only the
instance state changes; the registration state is untouched (the source's
open() never touches _active_instance, atexit or signal handlers). -/
def openW (w : GoggleWorld) (i : Nat) (establishOk writeOk : Bool) :
    Except (GErr × GoggleWorld) GoggleWorld :=
  match openController (w.controllers.getD i dfltController) establishOk writeOk with
  | .ok c2 => .ok (updateController w i c2)
  | .error (e, c2) => .error (e, updateController w i c2)

/-- World-level view of GoggleController.close on instance `i`:
total, and it never touches the registration state (the source's close()
does not deregister the instance). -/
def closeW (w : GoggleWorld) (i : Nat) (zeroWriteOk : Bool) : GoggleWorld :=
  updateController w i (close (w.controllers.getD i dfltController) zeroWriteOk)

/-- World-level view of GoggleController.set_brightness on instance `i`. -/
def setBrightnessW (w : GoggleWorld) (i : Nat) (level : Int) (writeOk : Bool) :
    Except (GErr × GoggleWorld) GoggleWorld :=
  match set_brightness (w.controllers.getD i dfltController) level writeOk with
  | .ok c2 => .ok (updateController w i c2)
  | .error (e, c2) => .error (e, updateController w i c2)

/-- World reached after an operation, whether it raised or returned
normally (a Python exception leaves the mutated world behind). -/
def exW (r : Except (GErr × GoggleWorld) GoggleWorld) : GoggleWorld :=
  match r with
  | .ok w => w
  | .error (_, w) => w

/-- World reached after construction, collapsing the failure case to the
unchanged input world (construction raises before any mutation). -/
def exC (w : GoggleWorld) (r : Except GErr GoggleWorld) : GoggleWorld :=
  match r with
  | .ok w2 => w2
  | .error _ => w

end GoggleCalibrate

namespace CalibConfig

/-- Error constructors, one per reachable raise site of validate_config
(src/config.py lines 81-143).  The missing-section checks cannot fire in
this typed embedding, where every required section is a field. -/
inductive CErr
  | minRange | maxRange | minGeMax | baudNonpos
  | startOutside | upLt1 | downLt1 | trialsLt1 | stepsEmpty | stepLt1 | badStepType
  | preNeg | durNonpos | itiNeg | thrNeg
deriving DecidableEq, Repr

/-- The hardware section fields read by validate_config. -/
structure HardwareConfig where
  brightness_min : Int
  brightness_max : Int
  baud_rate : Int
deriving DecidableEq, Repr

/-- The staircase section fields read by validate_config. -/
structure StaircaseConfig where
  start_value : Int
  n_up : Int
  n_down : Int
  n_trials : Int
  step_sizes : List Int
  step_type : String
deriving DecidableEq, Repr

/-- The timing section fields read by validate_config. -/
structure TimingConfig where
  pre_stimulus_delay : ℚ
  stimulus_duration : ℚ
  inter_trial_interval : ℚ
deriving DecidableEq, Repr

/-- The configuration fields consumed by validate_config.
`data_threshold_reversals` is `none` when the optional data section or
its threshold_reversals key is absent (the source then defaults to 6). -/
structure Config where
  hardware : HardwareConfig
  staircase : StaircaseConfig
  timing : TimingConfig
  data_threshold_reversals : Option Int
deriving DecidableEq, Repr

/-- validate_config (src/config.py lines 81-143), checks in source
order: hardware ranges and baud rate, staircase parameters, step type,
timing, then the optional threshold_reversals value. -/
def validate_config (cfg : Config) : Except CErr Unit :=
  if cfg.hardware.brightness_min < 0 ∨ cfg.hardware.brightness_min > 255 then
    .error .minRange
  else if cfg.hardware.brightness_max < 0 ∨ cfg.hardware.brightness_max > 255 then
    .error .maxRange
  else if cfg.hardware.brightness_min ≥ cfg.hardware.brightness_max then
    .error .minGeMax
  else if cfg.hardware.baud_rate ≤ 0 then .error .baudNonpos
  else if cfg.staircase.start_value < cfg.hardware.brightness_min ∨
      cfg.staircase.start_value > cfg.hardware.brightness_max then
    .error .startOutside
  else if cfg.staircase.n_up < 1 then .error .upLt1
  else if cfg.staircase.n_down < 1 then .error .downLt1
  else if cfg.staircase.n_trials < 1 then .error .trialsLt1
  else if cfg.staircase.step_sizes = [] then .error .stepsEmpty
  else if cfg.staircase.step_sizes.any (fun step => decide (step < 1)) then
    .error .stepLt1
  else if ¬ (cfg.staircase.step_type = "lin" ∨ cfg.staircase.step_type = "log" ∨
      cfg.staircase.step_type = "db") then
    .error .badStepType
  else if cfg.timing.pre_stimulus_delay < 0 then .error .preNeg
  else if cfg.timing.stimulus_duration ≤ 0 then .error .durNonpos
  else if cfg.timing.inter_trial_interval < 0 then .error .itiNeg
  else if cfg.data_threshold_reversals.getD 6 < 0 then .error .thrNeg
  else .ok ()

end CalibConfig

namespace Staircase

/-- Arithmetic mean of a list of rationals (np.mean on a nonempty list). -/
def listMean (xs : List ℚ) : ℚ :=
  xs.sum / (xs.length : ℚ)

/-- StaircaseManager.calculate_threshold (src/staircase.py lines 166-196)
as a function of the reversal-intensity list it reads: None when no
reversal was recorded; the mean of all reversals when n_reversals is 0 or
fewer than n_reversals exist; otherwise the mean of the Python slice
reversals[-n_reversals:], i.e. the final n_reversals entries. -/
def calculate_threshold (reversals : List ℚ) (n_reversals : ℕ) : Option ℚ :=
  if reversals = [] then none
  else if n_reversals = 0 ∨ reversals.length < n_reversals then
    some (listMean reversals)
  else
    some (listMean (reversals.drop (reversals.length - n_reversals)))

/-- Spec-side estimateThreshold, written from the spec's own words:
nothing if zero reversals are recorded, else the arithmetic mean of the
last lastN entries of reversalIntensities, or of all of them when
lastN == 0 or fewer than lastN exist.  The last lastN entries are taken
here by reversing, taking lastN and reversing back, to be compared with
the source's slice. -/
def estimateThreshold (revs : List ℚ) (lastN : ℕ) : Option ℚ :=
  if revs.length = 0 then none
  else if lastN = 0 ∨ revs.length < lastN then some (listMean revs)
  else some (listMean ((revs.reverse.take lastN).reverse))

/-- Modelled from the spec: direction of the most recently applied step of
the AdaptiveStaircaseEngine (spec section 3, StaircaseState). -/
inductive StairDirection
  | increase | decrease | undefined
deriving DecidableEq, Repr

/-- Modelled from the spec: the configuration of the
AdaptiveStaircaseEngine (spec section 4.1).  The engine itself lives in
PsychoPy's data.StairHandler, which src/staircase.py wraps but which is
not part of the repository sources. -/
structure EngineParams where
  startValue : Int
  stepSequence : List Int
  upCount : ℕ
  downCount : ℕ
  nTrials : ℕ
  minVal : Int
  maxVal : Int
  applyInitialRule : Bool
deriving DecidableEq, Repr

/-- Modelled from the spec: the mutable StaircaseState (spec section 3).
`runDirection` is the currently accumulating direction supported by
`sameDirectionRunLength` consecutive responses. -/
structure EngineState where
  intensity : Int
  stepIndex : ℕ
  lastDirection : StairDirection
  runDirection : StairDirection
  sameDirectionRunLength : ℕ
  reversalIntensities : List Int
  trialsCompleted : ℕ
deriving DecidableEq, Repr

/-- Clamp an intensity into [minVal, maxVal] (spec section 3). -/
def clampIntensity (lo hi x : Int) : Int :=
  max lo (min hi x)

/-- Modelled from the spec: the state the engine starts in after a
successful initialize (spec sections 3 and 4.1). -/
def initEngine (p : EngineParams) : EngineState :=
  { intensity := p.startValue, stepIndex := 0,
    lastDirection := .undefined, runDirection := .undefined,
    sameDirectionRunLength := 0, reversalIntensities := [], trialsCompleted := 0 }

/-- Modelled from the spec: recordResponse (spec section 4.1, steps 1-6).
The active rule is 1-up/1-down while applyInitialRule holds and no
reversal has occurred; the response extends or restarts the directional
run; when the run length reaches the rule threshold one step of the
current magnitude is applied and clamped; a step whose direction differs
from the previous applied step is a reversal, recording the pre-step
intensity and advancing the (capped) step index; lastDirection is updated
only when a step is applied; the trial counter always advances. -/
def recordResponse (p : EngineParams) (s : EngineState) (positive : Bool) : EngineState :=
  let initialActive := p.applyInitialRule ∧ s.reversalIntensities = []
  let upThreshold := if initialActive then 1 else p.upCount
  let downThreshold := if initialActive then 1 else p.downCount
  let newDir : StairDirection := if positive then .increase else .decrease
  let runLen := if s.runDirection = newDir then s.sameDirectionRunLength + 1 else 1
  let threshold := if positive then upThreshold else downThreshold
  if runLen ≥ threshold then
    let step := p.stepSequence.getD s.stepIndex 0
    let preStep := s.intensity
    let stepped := if positive then preStep + step else preStep - step
    let isReversal := s.lastDirection ≠ .undefined ∧ s.lastDirection ≠ newDir
    { intensity := clampIntensity p.minVal p.maxVal stepped,
      stepIndex :=
        if isReversal then min (s.stepIndex + 1) (p.stepSequence.length - 1)
        else s.stepIndex,
      lastDirection := newDir,
      runDirection := newDir,
      sameDirectionRunLength := 0,
      reversalIntensities :=
        if isReversal then s.reversalIntensities ++ [preStep]
        else s.reversalIntensities,
      trialsCompleted := s.trialsCompleted + 1 }
  else
    { s with runDirection := newDir, sameDirectionRunLength := runLen,
             trialsCompleted := s.trialsCompleted + 1 }

/-- Modelled from the spec: reversalCount (spec section 4.1). -/
def reversalCount (s : EngineState) : ℕ :=
  s.reversalIntensities.length

/-- Modelled from the spec: isFinished, with finished derived as
trialsCompleted >= nTrials (spec section 3). -/
def isFinished (p : EngineParams) (s : EngineState) : Bool :=
  p.nTrials ≤ s.trialsCompleted

/-- Feed a whole response sequence to the engine in order. -/
def runResponses (p : EngineParams) (s : EngineState) (rs : List Bool) : EngineState :=
  rs.foldl (recordResponse p) s

/-- The Scenario A configuration (spec section 8). -/
def scenarioAParams : EngineParams :=
  { startValue := 128, stepSequence := [32, 16, 8, 4, 2, 1],
    upCount := 1, downCount := 1, nTrials := 6,
    minVal := 0, maxVal := 255, applyInitialRule := false }

end Staircase

namespace GoggleCalibrate

/-- Whether the transmit attempted by _write_brightness fails on this
channel state with this write outcome: no handle, closed handle, or a
failing physical write. -/
def transmitFailsB (c : GoggleController) (writeOk : Bool) : Bool :=
  match c.serial with
  | none => true
  | some s => !s.is_open || !writeOk

/-- An open channel whose forced zero transmit will fail, holding a
non-zero mirrored brightness. -/
def cFailClose : GoggleController :=
  { brightness_min := 0, brightness_max := 255,
    serial := some { is_open := true, sent := [] },
    current_brightness := 128, is_open := true }

/-- C1 counterexample: on an open channel with mirrored level 128 whose
forced zero transmit fails, close() ends with open = false but leaves
mirroredLevel at 128, not 0, refuting the claim that mirroredLevel is set
to 0 regardless of the transmit outcome. -/
theorem c1_mirror_not_zeroed_on_failed_transmit :
    cFailClose.is_open = true ∧
    (close cFailClose false).is_open = false ∧
    (close cFailClose false).serial = none ∧
    (close cFailClose false).current_brightness = 128 ∧
    ¬ (close cFailClose false).current_brightness = 0 := by
  decide

/-- C1 (amended): for every channel on which close() attempts the forced
zero transmit, close() completes without raising (it is a total
function), releases the transport and ends with open = false, whatever
the transmit outcome; mirroredLevel is set to 0 when the forced transmit
succeeds and is left unchanged when it fails. -/
theorem c1_close_best_effort (c : GoggleController) (s : SerialPort)
    (hopen : c.is_open = true) (hser : c.serial = some s) (hso : s.is_open = true) :
    (close c false).is_open = false ∧
    (close c false).serial = none ∧
    (close c false).current_brightness = c.current_brightness ∧
    (close c true).is_open = false ∧
    (close c true).serial = none ∧
    (close c true).current_brightness = 0 := by
  simp [close, force_brightness_zero, write_brightness, hopen, hser, hso]

/-- C1 witness: the amended theorem applied to the concrete failing
channel. -/
theorem c1_close_best_effort_witness :
    (close cFailClose false).is_open = false ∧
    (close cFailClose false).serial = none ∧
    (close cFailClose false).current_brightness = cFailClose.current_brightness ∧
    (close cFailClose true).is_open = false ∧
    (close cFailClose true).serial = none ∧
    (close cFailClose true).current_brightness = 0 :=
  c1_close_best_effort cFailClose { is_open := true, sent := [] } rfl rfl rfl

/-- C3: set_brightness fails exactly when the channel is not open, the
level is outside the hard range [0,255], or the transmit fails; the
failure is returned to the caller (never swallowed) and the state it
carries has the mirrored level unchanged; the not-open and out-of-range
cases raise at their dedicated sites, and the transmit cases raise one of
the two _write_brightness errors. -/
theorem c3_setLevel_failure_cases (c : GoggleController) (level : Int) (writeOk : Bool) :
    ((∃ e s, set_brightness c level writeOk = .error (e, s)) ↔
        (c.is_open = false ∨ level < 0 ∨ level > 255 ∨ transmitFailsB c writeOk = true)) ∧
    (∀ e s, set_brightness c level writeOk = .error (e, s) →
        s.current_brightness = c.current_brightness) ∧
    (c.is_open = false → set_brightness c level writeOk = .error (.notOpenState, c)) ∧
    (c.is_open = true → (level < 0 ∨ level > 255) →
        set_brightness c level writeOk = .error (.rangeOut, c)) ∧
    (c.is_open = true → 0 ≤ level → level ≤ 255 → transmitFailsB c writeOk = true →
        set_brightness c level writeOk = .error (.writeNotOpen, c) ∨
        set_brightness c level writeOk = .error (.writeFail, c)) := by
  by_cases hr : level < 0 ∨ level > 255 <;>
    cases hopen : c.is_open <;>
    rcases hser : c.serial with _ | s <;>
    [skip; cases hso : s.is_open; skip; cases hso : s.is_open;
     skip; cases hso : s.is_open; skip; cases hso : s.is_open] <;>
    cases writeOk <;>
    simp [set_brightness, write_brightness, transmitFailsB, hopen, hser, hr] <;>
    simp_all <;> omega

/-- C3 witness: Scenario C at a concrete open channel — setLevel 300 fails
at the range check and leaves the mirrored level unchanged. -/
theorem c3_setLevel_failure_cases_witness :
    set_brightness cFailClose 300 true = .error (.rangeOut, cFailClose) ∧
    (∀ e s, set_brightness cFailClose 300 true = .error (e, s) →
        s.current_brightness = cFailClose.current_brightness) :=
  ⟨(c3_setLevel_failure_cases cFailClose 300 true).2.2.2.1 rfl (by omega),
   (c3_setLevel_failure_cases cFailClose 300 true).2.1⟩

/-- C4: on an open channel with a live transport and a successful write,
set_brightness L for L in the hard range returns normally; reading the
brightness right after returns the soft-clamped value of L, which was
also the value transmitted; the clamp is the identity inside the
configured bounds and raises to brightness_min below them. -/
theorem c4_setLevel_roundtrip (c : GoggleController) (s : SerialPort) (L : Int)
    (hopen : c.is_open = true) (hser : c.serial = some s) (hso : s.is_open = true)
    (h0 : 0 ≤ L) (h255 : L ≤ 255) :
    (∃ c2, set_brightness c L true = .ok c2 ∧
       get_brightness c2 = clampSoft c L ∧
       c2.serial = some { s with sent := s.sent ++ [clampSoft c L] } ∧
       c2.is_open = true) ∧
    (c.brightness_min ≤ L → L ≤ c.brightness_max → clampSoft c L = L) ∧
    (L < c.brightness_min → c.brightness_min ≤ c.brightness_max →
       clampSoft c L = c.brightness_min) := by
  have hrange : ¬ (L < 0 ∨ L > 255) := by omega
  refine ⟨?_, ?_, ?_⟩
  · refine
      ⟨{ c with
         serial := some { s with sent := s.sent ++ [clampSoft c L] },
         current_brightness := clampSoft c L },
       ?_, rfl, rfl, hopen⟩
    simp [set_brightness, write_brightness, hopen, hser, hso, hrange]
  · intro hlo hhi
    simp only [clampSoft]
    split_ifs <;> omega
  · intro hlt hle
    simp only [clampSoft]
    split_ifs <;> omega

/-- An open channel configured with the Scenario D bounds [20,200]. -/
def cScenD : GoggleController :=
  { brightness_min := 20, brightness_max := 200,
    serial := some { is_open := true, sent := [] },
    current_brightness := 0, is_open := true }

/-- C4 witness: Scenario D — setLevel 10 with bounds [20,200] succeeds,
clamps to 20, transmits 20 and mirrors 20. -/
theorem c4_setLevel_roundtrip_witness :
    (∃ c2, set_brightness cScenD 10 true = .ok c2 ∧
       get_brightness c2 = 20 ∧
       c2.serial = some { is_open := true, sent := [20] } ∧
       c2.is_open = true) ∧
    clampSoft cScenD 10 = 20 := by
  obtain ⟨⟨c2, h1, h2, h3, h4⟩, -, h6⟩ :=
    c4_setLevel_roundtrip cScenD { is_open := true, sent := [] } 10
      rfl rfl rfl (by omega) (by omega)
  have hc : clampSoft cScenD 10 = 20 := h6 (by decide) (by decide)
  rw [hc] at h2 h3
  exact ⟨⟨c2, h1, h2, by simpa using h3, h4⟩, hc⟩

/-- C5 counterexample: on the open channel with mirrored level 128 whose
forced zero transmit fails, even two consecutive close() calls end with
mirroredLevel = 128, refuting the claimed end state mirroredLevel = 0. -/
theorem c5_end_state_counterexample :
    cFailClose.is_open = true ∧
    (close (close cFailClose false) true).is_open = false ∧
    (close (close cFailClose false) true).current_brightness = 128 ∧
    ¬ (close (close cFailClose false) true).current_brightness = 0 := by
  decide

/-- C5 (amended): close() is idempotent — a second close() changes
nothing, and close() on an already-closed channel is a no-op; the end
state always has open = false, and has mirroredLevel = 0 whenever the
forced zero transmit succeeded (otherwise the mirrored level is left
unchanged). -/
theorem c5_close_idempotent (c : GoggleController) (s : SerialPort) (z1 z2 : Bool) :
    close (close c z1) z2 = close c z1 ∧
    (c.is_open = false → close c z1 = c) ∧
    (close c z1).is_open = false ∧
    (c.is_open = true → c.serial = some s → s.is_open = true → z1 = true →
      (close c z1).current_brightness = 0) ∧
    (c.is_open = true → c.serial = some s → s.is_open = true → z1 = false →
      (close c z1).current_brightness = c.current_brightness) := by
  cases hopen : c.is_open with
  | false => simp [close, hopen]
  | true =>
    refine ⟨?_, by simp [hopen], by simp [close, hopen], ?_, ?_⟩
    · simp [close, hopen]
    · intro _ hser hso hz
      subst hz
      simp [close, force_brightness_zero, write_brightness, hopen, hser, hso]
    · intro _ hser hso hz
      subst hz
      simp [close, force_brightness_zero, write_brightness, hopen, hser, hso]

/-- C5 witness: the amended theorem at the concrete open channel, with a
successful forced transmit. -/
theorem c5_close_idempotent_witness :
    close (close cFailClose true) true = close cFailClose true ∧
    (close cFailClose true).current_brightness = 0 := by
  have h := c5_close_idempotent cFailClose { is_open := true, sent := [] } true true
  exact ⟨h.1, h.2.2.2.1 rfl rfl rfl rfl⟩

/-- Whether a fallible operation returned normally. -/
def isOkB {ε α : Type} (r : Except ε α) : Bool :=
  match r with
  | .ok _ => true
  | .error _ => false

/-- The process before any controller has been constructed. -/
def wEmpty : GoggleWorld :=
  { controllers := [], active_instance := none, atexit_hooks := [], signal_owner := none }

/-- The world after constructing a controller with soft bounds [20,200]. -/
def wConstructed : GoggleWorld :=
  exC wEmpty (construct wEmpty 20 200)

/-- The world after opening that controller on a working transport. -/
def wOpened : GoggleWorld :=
  exW (openW wConstructed 0 true true)

/-- The world after closing that controller again. -/
def wClosed : GoggleWorld :=
  closeW wOpened 0 true

/-- C2: evaluation at the failing input.  With soft bounds [20,200], a
successful construction and open end with the channel open and armed, but
the initial transmit performed by open() is the soft-clamped value 20,
not the unconditional 0 the spec requires: the transcript of commands
sent during open() is [20], a non-zero command observed before any
setLevel call, and the mirrored level is 20. -/
theorem c2_open_transmits_clamped_min :
    isOkB (construct wEmpty 20 200) = true ∧
    isOkB (openW wConstructed 0 true true) = true ∧
    wOpened.active_instance = some 0 ∧
    (wOpened.controllers.getD 0 dfltController).is_open = true ∧
    (wOpened.controllers.getD 0 dfltController).serial =
      some { is_open := true, sent := [20] } ∧
    (wOpened.controllers.getD 0 dfltController).current_brightness = 20 := by
  decide

/-- C6 counterexample: the channel of wOpened is the armed channel
(slot = some 0); after close() it is closed, yet the slot still holds it:
close() does not deregister the channel from the shutdown guard. -/
theorem c6_still_armed_after_close :
    wOpened.active_instance = some 0 ∧
    (wOpened.controllers.getD 0 dfltController).is_open = true ∧
    (wClosed.controllers.getD 0 dfltController).is_open = false ∧
    wClosed.active_instance = some 0 := by
  decide

/-- C6 (amended): close() leaves the ProcessShutdownGuard registration
untouched: the armed slot, the atexit hooks and the signal-handler owner
are all exactly what they were before the close() call. -/
theorem c6_close_preserves_registration (w : GoggleWorld) (i : Nat) (z : Bool) :
    (closeW w i z).active_instance = w.active_instance ∧
    (closeW w i z).atexit_hooks = w.atexit_hooks ∧
    (closeW w i z).signal_owner = w.signal_owner :=
  ⟨rfl, rfl, rfl⟩

/-- C10: a successful construction installs the new controller as the
armed instance, registers the atexit hook and takes over the signal
handlers, before open() is ever called (the new controller is closed with
no transport); and none of the subsequent operations — close() included —
changes the armed slot, so the slot always holds the most recently
constructed controller. -/
theorem c10_armed_slot_most_recent (w : GoggleWorld) (bmin bmax : Int)
    (h1 : 0 ≤ bmin) (h2 : bmin ≤ 255) (h3 : 0 ≤ bmax) (h4 : bmax ≤ 255)
    (h5 : bmin < bmax) :
    (∃ w2, construct w bmin bmax = .ok w2 ∧
       w2.active_instance = some w.controllers.length ∧
       w2.atexit_hooks = w.atexit_hooks ++ [w.controllers.length] ∧
       w2.signal_owner = some w.controllers.length ∧
       w2.controllers = w.controllers ++ [initController bmin bmax]) ∧
    (∀ i z, (closeW w i z).active_instance = w.active_instance) ∧
    (∀ i e k, (exW (openW w i e k)).active_instance = w.active_instance) ∧
    (∀ i l k, (exW (setBrightnessW w i l k)).active_instance = w.active_instance) := by
  refine ⟨?_, fun i z => rfl, ?_, ?_⟩
  · have hc : construct w bmin bmax =
        .ok { controllers := w.controllers ++ [initController bmin bmax],
              active_instance := some w.controllers.length,
              atexit_hooks := w.atexit_hooks ++ [w.controllers.length],
              signal_owner := some w.controllers.length } := by
      unfold construct
      rw [if_neg (by omega), if_neg (by omega), if_neg (by omega)]
    exact ⟨_, hc, rfl, rfl, rfl, rfl⟩
  · intro i e k
    cases h : openController (w.controllers.getD i dfltController) e k with
    | ok c2 => simp only [openW, exW, h, updateController]
    | error p =>
      obtain ⟨e2, c2⟩ := p
      simp only [openW, exW, h, updateController]
  · intro i l k
    cases h : set_brightness (w.controllers.getD i dfltController) l k with
    | ok c2 => simp only [setBrightnessW, exW, h, updateController]
    | error p =>
      obtain ⟨e2, c2⟩ := p
      simp only [setBrightnessW, exW, h, updateController]

/-- C10 witness: the invariant theorem at the empty world with the
default bounds [0,255]. -/
theorem c10_armed_slot_most_recent_witness :
    (∃ w2, construct wEmpty 0 255 = .ok w2 ∧
       w2.active_instance = some wEmpty.controllers.length ∧
       w2.atexit_hooks = wEmpty.atexit_hooks ++ [wEmpty.controllers.length] ∧
       w2.signal_owner = some wEmpty.controllers.length ∧
       w2.controllers = wEmpty.controllers ++ [initController 0 255]) ∧
    (∀ i z, (closeW wEmpty i z).active_instance = wEmpty.active_instance) ∧
    (∀ i e k, (exW (openW wEmpty i e k)).active_instance = wEmpty.active_instance) ∧
    (∀ i l k, (exW (setBrightnessW wEmpty i l k)).active_instance = wEmpty.active_instance) :=
  c10_armed_slot_most_recent wEmpty 0 255 (by omega) (by omega) (by omega) (by omega)
    (by omega)

end GoggleCalibrate

namespace CalibConfig

/-- A configuration violating none of the conditions listed by the claim
(start_value 100 lies in [100,100], all staircase parameters valid) but
with degenerate bounds brightness_min = brightness_max = 100. -/
def cexConfig : Config :=
  { hardware := { brightness_min := 100, brightness_max := 100, baud_rate := 9600 },
    staircase := { start_value := 100, n_up := 1, n_down := 1, n_trials := 1,
                   step_sizes := [1], step_type := "lin" },
    timing := { pre_stimulus_delay := 6, stimulus_duration := 2, inter_trial_interval := 6 },
    data_threshold_reversals := none }

/-- C8 counterexample: cexConfig violates none of the claim's conditions
(non-empty steps all at least 1, counts and trials at least 1, start
value inside [minVal, maxVal]) yet validation raises ConfigError, because
brightness_min >= brightness_max is also rejected. -/
theorem c8_rejects_beyond_listed_conditions :
    validate_config cexConfig = .error .minGeMax ∧
    cexConfig.staircase.step_sizes ≠ [] ∧
    (∀ st ∈ cexConfig.staircase.step_sizes, 1 ≤ st) ∧
    1 ≤ cexConfig.staircase.n_up ∧
    1 ≤ cexConfig.staircase.n_down ∧
    1 ≤ cexConfig.staircase.n_trials ∧
    cexConfig.hardware.brightness_min ≤ cexConfig.staircase.start_value ∧
    cexConfig.staircase.start_value ≤ cexConfig.hardware.brightness_max := by
  decide

/-- C8 (amended): with the non-staircase settings valid (positive baud
rate, known step type, valid timing, non-negative threshold reversal
count), validation succeeds exactly when the bounds are themselves valid
(each within [0,255] and min < max) and none of the claim's listed
conditions is violated: start value within the bounds, counts and trial
number at least 1, step list non-empty with every step at least 1. -/
theorem c8_validate_exactly (cfg : Config)
    (hbaud : 0 < cfg.hardware.baud_rate)
    (hstep : cfg.staircase.step_type = "lin" ∨ cfg.staircase.step_type = "log" ∨
      cfg.staircase.step_type = "db")
    (hpre : 0 ≤ cfg.timing.pre_stimulus_delay)
    (hdur : 0 < cfg.timing.stimulus_duration)
    (hiti : 0 ≤ cfg.timing.inter_trial_interval)
    (hthr : 0 ≤ cfg.data_threshold_reversals.getD 6) :
    validate_config cfg = .ok () ↔
      (0 ≤ cfg.hardware.brightness_min ∧ cfg.hardware.brightness_min ≤ 255 ∧
       0 ≤ cfg.hardware.brightness_max ∧ cfg.hardware.brightness_max ≤ 255 ∧
       cfg.hardware.brightness_min < cfg.hardware.brightness_max ∧
       cfg.hardware.brightness_min ≤ cfg.staircase.start_value ∧
       cfg.staircase.start_value ≤ cfg.hardware.brightness_max ∧
       1 ≤ cfg.staircase.n_up ∧ 1 ≤ cfg.staircase.n_down ∧
       1 ≤ cfg.staircase.n_trials ∧
       cfg.staircase.step_sizes ≠ [] ∧
       (∀ st ∈ cfg.staircase.step_sizes, 1 ≤ st)) := by
  unfold validate_config
  by_cases h1 : cfg.hardware.brightness_min < 0 ∨ cfg.hardware.brightness_min > 255
  case pos =>
    rw [if_pos h1]
    exact iff_of_false (by simp) (by rintro ⟨b1, b2, -⟩; omega)
  rw [if_neg h1]
  by_cases h2 : cfg.hardware.brightness_max < 0 ∨ cfg.hardware.brightness_max > 255
  case pos =>
    rw [if_pos h2]
    exact iff_of_false (by simp) (by rintro ⟨-, -, b3, b4, -⟩; omega)
  rw [if_neg h2]
  by_cases h3 : cfg.hardware.brightness_min ≥ cfg.hardware.brightness_max
  case pos =>
    rw [if_pos h3]
    exact iff_of_false (by simp) (by rintro ⟨-, -, -, -, b5, -⟩; omega)
  rw [if_neg h3]
  rw [if_neg (show ¬ cfg.hardware.baud_rate ≤ 0 by omega)]
  by_cases h5 : cfg.staircase.start_value < cfg.hardware.brightness_min ∨
      cfg.staircase.start_value > cfg.hardware.brightness_max
  case pos =>
    rw [if_pos h5]
    exact iff_of_false (by simp) (by rintro ⟨-, -, -, -, -, b6, b7, -⟩; omega)
  rw [if_neg h5]
  by_cases h6 : cfg.staircase.n_up < 1
  case pos =>
    rw [if_pos h6]
    exact iff_of_false (by simp) (by rintro ⟨-, -, -, -, -, -, -, b8, -⟩; omega)
  rw [if_neg h6]
  by_cases h7 : cfg.staircase.n_down < 1
  case pos =>
    rw [if_pos h7]
    exact iff_of_false (by simp) (by rintro ⟨-, -, -, -, -, -, -, -, b9, -⟩; omega)
  rw [if_neg h7]
  by_cases h8 : cfg.staircase.n_trials < 1
  case pos =>
    rw [if_pos h8]
    exact iff_of_false (by simp) (by rintro ⟨-, -, -, -, -, -, -, -, -, b10, -⟩; omega)
  rw [if_neg h8]
  by_cases h9 : cfg.staircase.step_sizes = []
  case pos =>
    rw [if_pos h9]
    refine iff_of_false (by simp) ?_
    rintro ⟨-, -, -, -, -, -, -, -, -, -, b11, -⟩
    exact b11 h9
  rw [if_neg h9]
  by_cases h10 : cfg.staircase.step_sizes.any (fun step => decide (step < 1)) = true
  case pos =>
    rw [if_pos h10]
    refine iff_of_false (by simp) ?_
    rintro ⟨-, -, -, -, -, -, -, -, -, -, -, b12⟩
    rw [List.any_eq_true] at h10
    obtain ⟨st, hmem, hlt⟩ := h10
    have := b12 st hmem
    simp at hlt
    omega
  rw [if_neg h10]
  rw [if_neg (show ¬ ¬ (cfg.staircase.step_type = "lin" ∨ cfg.staircase.step_type = "log" ∨
    cfg.staircase.step_type = "db") from not_not.mpr hstep)]
  rw [if_neg (not_lt.mpr hpre)]
  rw [if_neg (not_le.mpr hdur)]
  rw [if_neg (not_lt.mpr hiti)]
  rw [if_neg (not_lt.mpr hthr)]
  refine iff_of_true rfl ⟨by omega, by omega, by omega, by omega, by omega, by omega,
    by omega, by omega, by omega, by omega, h9, ?_⟩
  intro st hmem
  by_contra hcon
  exact h10 (List.any_eq_true.mpr ⟨st, hmem, by simp; omega⟩)

/-- C8 witness: the amended equivalence at the default shipped
configuration values (bounds [0,255], start 128, steps [32,16,8,4,2,1]),
which it certifies as accepted. -/
theorem c8_validate_exactly_witness :
    validate_config
      { hardware := { brightness_min := 0, brightness_max := 255, baud_rate := 9600 },
        staircase := { start_value := 128, n_up := 1, n_down := 3, n_trials := 30,
                       step_sizes := [32, 16, 8, 4, 2, 1], step_type := "lin" },
        timing := { pre_stimulus_delay := 6, stimulus_duration := 2,
                    inter_trial_interval := 6 },
        data_threshold_reversals := some 6 } = .ok () := by
  rw [c8_validate_exactly _ (by decide) (by decide) (by decide) (by decide) (by decide)
    (by decide)]
  decide

end CalibConfig

namespace Staircase

/-- C7: Scenario A — with start 128, steps [32,16,8,4,2,1], the 1-up-1-down
rule, 6 trials and no initial rule, the alternating response sequence
produces exactly 5 reversals, and the engine is finished after the 6th
recorded response. -/
theorem c7_scenarioA_five_reversals :
    reversalCount (runResponses scenarioAParams (initEngine scenarioAParams)
      [true, false, true, false, true, false]) = 5 ∧
    (runResponses scenarioAParams (initEngine scenarioAParams)
      [true, false, true, false, true, false]).trialsCompleted = 6 ∧
    isFinished scenarioAParams (runResponses scenarioAParams (initEngine scenarioAParams)
      [true, false, true, false, true, false]) = true := by
  decide

/-- C9: the source's calculate_threshold agrees with the spec's
estimateThreshold on every reversal list and every lastN: nothing when no
reversal is recorded, the mean of all reversals when lastN is 0 or fewer
than lastN exist, and the mean of the last lastN reversals otherwise. -/
theorem c9_threshold_matches_spec (revs : List ℚ) (lastN : ℕ) :
    calculate_threshold revs lastN = estimateThreshold revs lastN := by
  unfold calculate_threshold estimateThreshold
  by_cases hnil : revs = []
  · simp [hnil]
  · have hlen : ¬ revs.length = 0 := by
      simpa [List.length_eq_zero] using hnil
    rw [if_neg hnil, if_neg hlen]
    by_cases hlo : lastN = 0 ∨ revs.length < lastN
    · rw [if_pos hlo, if_pos hlo]
    · rw [if_neg hlo, if_neg hlo]
      have hdrop : revs.drop (revs.length - lastN) = (revs.reverse.take lastN).reverse :=
        List.rtake_eq_reverse_take_reverse revs lastN
      rw [hdrop]

end Staircase


